import Mathlib

/-
Verification of the parameter-marshalling layer and calibration loop of the
CaTE repository (`src/cate/param.py`, `src/examples/needles/util.py`).

The Python code is shallowly embedded: Python/numpy values that flow through
this layer are modelled by `Val` (None, scalars, numpy arrays, Python lists,
zero-argument callables), numbers by `Num` (a rational, or one of the two
float infinities used for default bounds), and Python exceptions by
`Except PyErr`.  All functions are executable.
-/

set_option autoImplicit false

namespace CaTE

/-- The Python exception classes that the embedded code can raise. -/
inductive PyErr where
  | typeError
  | valueError
  | assertionError
  deriving Repr, DecidableEq

/-- A Python float as used by this layer: a finite rational, or one of the
two infinities (`numpy.inf` appears in the default bounds).  No arithmetic
is ever performed on parameter values by the marshalling layer — they are
only copied — so no operations beyond equality are needed. -/
inductive Num where
  | fin (q : ℚ)
  | pinf
  | ninf
  deriving Repr, DecidableEq

/-- A Python value stored in (or assigned to) a `Parameter`:
`none` is Python's `None` (the constructor default), `scalar` a plain
number, `array` a one-dimensional `numpy.ndarray`, `list` a Python list,
and `func` a zero-argument callable producing a delayed value. -/
inductive Val where
  | none
  | scalar (x : Num)
  | array (xs : List Num)
  | list (xs : List Num)
  | func (v : Val)
  deriving Repr, DecidableEq

/-- `numpy.isscalar`: true only for plain numbers (not for arrays, lists,
`None`, or callables). -/
def Val.npIsScalar : Val → Bool
  | .scalar _ => true
  | _ => false

/-- The concrete Python class of a parameter object: the plain `Parameter`
base class, `ScalarParameter`, or `VectorParameter`.  The class decides
which `value` property setter runs. -/
inductive PKind where
  | base
  | scalar
  | vector
  deriving Repr, DecidableEq

/-- `cate.param.Parameter`: the stored `_value`, the `optimize` flag and the
stored `_bounds` (`None` or a `(min, max)` pair of arrays).  The write-only
`_value_original` attribute is never read by any code in the repository and
is omitted. -/
structure Parameter where
  kind : PKind
  pvalue : Val
  optimize : Bool
  pbounds : Option (List Num × List Num)
  deriving Repr, DecidableEq

/-- The `Parameter.value` property getter: resolves a callable stored value
by calling it once, otherwise returns the stored value unchanged
(`param.py` lines 22-27; `ScalarParameter` delegates to the same getter). -/
def Parameter.getValue (p : Parameter) : Val :=
  match p.pvalue with
  | .func v => v
  | v => v

/-- `Parameter.__len__` (`param.py` lines 47-51): 1 when the raw stored
value is a numpy scalar, otherwise Python `len` of the raw stored value —
which raises `TypeError` for `None` and for callables. -/
def Parameter.pyLen (p : Parameter) : Except PyErr Nat :=
  if p.pvalue.npIsScalar then .ok 1
  else
    match p.pvalue with
    | .array xs => .ok xs.length
    | .list xs => .ok xs.length
    | _ => .error .typeError

/-- The `Parameter.bounds` property getter (`param.py` lines 33-41): the
explicit bounds when set, otherwise freshly computed
`([-inf] * len(self), [inf] * len(self))` — so it inherits `__len__`'s
`TypeError` on callable or `None` values. -/
def Parameter.getBounds (p : Parameter) : Except PyErr (List Num × List Num) :=
  match p.pbounds with
  | some b => .ok b
  | Option.none =>
    match p.pyLen with
    | .error e => .error e
    | .ok n => .ok (List.replicate n Num.ninf, List.replicate n Num.pinf)

/-- The `value` property setter dispatched on the object's class.
For `ScalarParameter` (`param.py` lines 62-71): `None` is stored unchecked;
an `ndarray` is reduced with `.item()`, which yields its single element or
raises `ValueError` when its size is not 1; any other non-scalar
(a Python list, a callable) fails the `np.isscalar` check with `TypeError`.
The base `Parameter` setter (lines 29-31), inherited by `VectorParameter`,
stores any value unchecked. -/
def Parameter.setValue (p : Parameter) (v : Val) : Except PyErr Parameter :=
  match p.kind with
  | .scalar =>
    match v with
    | .none => .ok { p with pvalue := .none }
    | .scalar x => .ok { p with pvalue := .scalar x }
    | .array [x] => .ok { p with pvalue := .scalar x }
    | .array _ => .error .valueError
    | .list _ => .error .typeError
    | .func _ => .error .typeError
  | _ => .ok { p with pvalue := v }

/-- `ScalarParameter.__init__` (`param.py` lines 55-56): stores the value
directly through `Parameter.__init__`, without running the setter. -/
def ScalarParameter.init (value : Val) (optimize : Bool)
    (bounds : Option (List Num × List Num)) : Parameter :=
  ⟨.scalar, value, optimize, bounds⟩

namespace VectorParameter

/-- `VectorParameter.__init__` (`param.py` lines 82-92): a Python list is
first converted to an `ndarray`; a non-`ndarray` value then raises
`TypeError`; an `ndarray` whose length is not 3 raises `ValueError`;
otherwise the value is stored via `Parameter.__init__`. -/
def init (value : Val) (optimize : Bool)
    (bounds : Option (List Num × List Num)) : Except PyErr Parameter :=
  let value := match value with
    | .list xs => Val.array xs
    | v => v
  match value with
  | .array xs =>
    if xs.length = 3 then .ok ⟨.vector, .array xs, optimize, bounds⟩
    else .error .valueError
  | _ => .error .typeError

end VectorParameter

/-- An entry of a parameter collection: a `Parameter`, or an arbitrary
non-`Parameter` object (the `tag` distinguishes sentinels but plays no
role in the semantics, exactly as in the source, which only tests
`issubclass(type(p), Parameter)`). -/
inductive Entry where
  | param (p : Parameter)
  | other (tag : Nat)
  deriving Repr, DecidableEq

/-- Writing `store` into the slice `out[idx:idx+n]` of a float `ndarray`
(numpy broadcasting): a scalar fills all `n` slots; an array or list of
length `n` is copied; a length-1 array or list broadcasts; any other
length raises `ValueError`; `None` and callables raise `TypeError`
because they cannot be converted to float. -/
def npBroadcastAssign (store : Val) (n : Nat) : Except PyErr (List Num) :=
  match store with
  | .scalar x => .ok (List.replicate n x)
  | .array xs | .list xs =>
    if xs.length = n then .ok xs
    else
      match xs with
      | [x] => .ok (List.replicate n x)
      | _ => .error .valueError
  | .none => .error .typeError
  | .func _ => .error .typeError

/-- First loop of `params2ndarray` (`param.py` lines 100-110): walks the
collection once, warning (and skipping) on each non-`Parameter` entry,
skipping excluded entries, and summing `len(p)` over included ones.
Returns the number of `UserWarning`s issued together with the total
length; propagates `__len__`'s `TypeError`. -/
def packCount (oo : Bool) : List Entry → Except PyErr (Nat × Nat)
  | [] => .ok (0, 0)
  | .other _ :: rest =>
    match packCount oo rest with
    | .error e => .error e
    | .ok (w, l) => .ok (w + 1, l)
  | .param p :: rest =>
    if oo && p.optimize == false then packCount oo rest
    else
      match p.pyLen with
      | .error e => .error e
      | .ok n =>
        match packCount oo rest with
        | .error e => .error e
        | .ok (w, l) => .ok (w, n + l)

/-- The value selected by `key` in the second loop of `params2ndarray`
(`param.py` lines 125-132): the resolved value, one of the bound rows
(Python lists), or — for any other key — `none`, standing for the
source's `return ValueError` (the class itself is returned, not raised). -/
def keyStore (p : Parameter) (key : String) : Except PyErr (Option Val) :=
  if key = "value" then .ok (some p.getValue)
  else if key = "min_bound" then
    match p.getBounds with
    | .error e => .error e
    | .ok b => .ok (some (.list b.1))
  else if key = "max_bound" then
    match p.getBounds with
    | .error e => .error e
    | .ok b => .ok (some (.list b.2))
  else .ok Option.none

/-- The outcome of the fill loop: the filled array, or the `ValueError`
class returned as a value when `key` is unrecognized. -/
inductive FillOut where
  | arr (xs : List Num)
  | valueErrorClass
  deriving Repr, DecidableEq

/-- Second loop of `params2ndarray` (`param.py` lines 116-135): the same
skip logic (now without warnings), then for each included entry `len(p)`
slots are written from the value selected by `key`; an unrecognized `key`
makes the function return the `ValueError` class at the first included
entry, abandoning the loop. -/
def packFill (oo : Bool) (key : String) : List Entry → Except PyErr FillOut
  | [] => .ok (.arr [])
  | .other _ :: rest => packFill oo key rest
  | .param p :: rest =>
    if oo && p.optimize == false then packFill oo key rest
    else
      match p.pyLen with
      | .error e => .error e
      | .ok n =>
        match keyStore p key with
        | .error e => .error e
        | .ok Option.none => .ok .valueErrorClass
        | .ok (some store) =>
          match npBroadcastAssign store n with
          | .error e => .error e
          | .ok chunk =>
            match packFill oo key rest with
            | .error e => .error e
            | .ok .valueErrorClass => .ok .valueErrorClass
            | .ok (.arr xs) => .ok (.arr (chunk ++ xs))

/-- The value returned by `params2ndarray`: the Python empty list `[]`
(returned verbatim when the computed total length is 0), a filled
`ndarray`, or the `ValueError` class itself. -/
inductive PackResult where
  | emptyList
  | arr (xs : List Num)
  | valueErrorClass
  deriving Repr, DecidableEq

/-- The numeric content of a `PackResult`, as consumed by a subsequent
`update_params` call. -/
def PackResult.vec : PackResult → List Num
  | .arr xs => xs
  | _ => []

/-- `cate.param.params2ndarray` (`param.py` lines 95-139): the counting
loop, the early `return []`, the fill loop, and the closing
`assert idx == length`.  The result pairs the number of `UserWarning`s
issued with the returned value. -/
def params2ndarray (params : List Entry) (oo : Bool) (key : String) :
    Except PyErr (Nat × PackResult) :=
  match packCount oo params with
  | .error e => .error e
  | .ok (w, length) =>
    if length = 0 then .ok (w, .emptyList)
    else
      match packFill oo key params with
      | .error e => .error e
      | .ok .valueErrorClass => .ok (w, .valueErrorClass)
      | .ok (.arr xs) =>
        if xs.length = length then .ok (w, .arr xs)
        else .error .assertionError

/-- The state of an `update_params` run: the collection after the run
(entries past a raised exception are untouched), the final slice cursor
`idx`, the number of `UserWarning`s issued (the source's loop body
contains no `warnings.warn` call, so this counter is never incremented),
and the exception raised, if any. -/
structure UpdateState where
  entries : List Entry
  idx : Nat
  warnings : Nat
  error : Option PyErr
  deriving Repr, DecidableEq

/-- The loop of `update_params` (`param.py` lines 148-159): non-`Parameter`
entries are skipped silently; excluded entries are skipped; for each
included entry `len(p)` is computed (propagating `TypeError`), the
`assert len_p != 0` is checked, the slice `x[idx:idx+len_p]` — which numpy
clips at the end of `x` — is assigned through the class's `value` setter,
and `idx` advances by `len_p`. -/
def updateGo (oo : Bool) (x : List Num) : List Entry → Nat → UpdateState
  | [], idx => ⟨[], idx, 0, Option.none⟩
  | .other t :: rest, idx =>
    let s := updateGo oo x rest idx
    { s with entries := .other t :: s.entries }
  | .param p :: rest, idx =>
    if oo && p.optimize == false then
      let s := updateGo oo x rest idx
      { s with entries := .param p :: s.entries }
    else
      match p.pyLen with
      | .error e => ⟨.param p :: rest, idx, 0, some e⟩
      | .ok lenP =>
        if lenP = 0 then ⟨.param p :: rest, idx, 0, some .assertionError⟩
        else
          match p.setValue (.array ((x.drop idx).take lenP)) with
          | .error e => ⟨.param p :: rest, idx, 0, some e⟩
          | .ok p2 =>
            let s := updateGo oo x rest (idx + lenP)
            { s with entries := .param p2 :: s.entries }

/-- `cate.param.update_params` (`param.py` lines 142-161): the in-place
update loop followed by the closing `assert idx == len(x)`, which is only
reached when the loop finished without raising. -/
def update_params (params : List Entry) (x : List Num) (oo : Bool) :
    UpdateState :=
  let s := updateGo oo x params 0
  match s.error with
  | some _ => s
  | Option.none =>
    if s.idx = x.length then s
    else { s with error := some .assertionError }

/-- Almost-equality of two floats at a decimal tolerance, as checked by
`numpy.testing.assert_almost_equal`: finite values must satisfy
`abs(desired - actual) < 1.5 * 10 ** (-decimal)`; infinities must be
equal. -/
def Num.almostEqual (a d : Num) (decimal : Nat) : Bool :=
  match a, d with
  | .fin x, .fin y => decide (|y - x| < 3 / 2 * (1 / 10 : ℚ) ^ decimal)
  | a, d => a == d

/-- `numpy.testing.assert_almost_equal` on two scalars: raises
`AssertionError` when the tolerance check fails. -/
def assertAlmostEqualNum (a d : Num) (decimal : Nat) : Except PyErr Unit :=
  if Num.almostEqual a d decimal then .ok () else .error .assertionError

/-- `numpy.testing.assert_almost_equal` on two arrays: shapes must match
and every component must pass the tolerance check, else
`AssertionError`. -/
def assertAlmostEqualList (a d : List Num) (decimal : Nat) :
    Except PyErr Unit :=
  if a.length == d.length
      && (a.zip d).all (fun q => Num.almostEqual q.1 q.2 decimal) then
    .ok ()
  else .error .assertionError

/-- Modelled from the spec: `cate.xray.StaticGeometry` is not under `src/`
(only its callers in `src/examples/needles/util.py` are).  Per the spec's
data flow and the attributes read by `run_calibration`, a geometry carries
a source position, a detector position, and three orientation angles. -/
structure StaticGeometry where
  source : List Num
  detector : List Num
  roll : Num
  pitch : Num
  yaw : Num
  deriving Repr, DecidableEq

/-- The body of the `try` block in `run_calibration`
(`util.py` lines 297-306): five `assert_almost_equal` comparisons at
decimal accuracy 3, run in sequence. -/
def validateGeomPair (g1 g2 : StaticGeometry) : Except PyErr Unit := do
  assertAlmostEqualList g1.source g2.source 3
  assertAlmostEqualList g1.detector g2.detector 3
  assertAlmostEqualNum g1.roll g2.roll 3
  assertAlmostEqualNum g1.pitch g2.pitch 3
  assertAlmostEqualNum g1.yaw g2.yaw 3

/-- A bare `try: ... except: pass` around an action (`util.py` lines
297-308): whatever the action did, control continues normally. -/
def pyTryExceptPass (action : Except PyErr Unit) : Except PyErr Unit :=
  match action with
  | _ => .ok ()

/-- The post-calibration validation loop of `run_calibration`
(`util.py` lines 296-308): `zip` the initial and calibrated geometry
lists (stopping at the shorter) and run each pair's comparison inside
`try: ... except: pass`. -/
def postCalibrationValidation :
    List StaticGeometry → List StaticGeometry → Except PyErr Unit
  | g1 :: r1, g2 :: r2 =>
    match pyTryExceptPass (validateGeomPair g1 g2) with
    | .error e => .error e
    | .ok _ => postCalibrationValidation r1 r2
  | _, _ => .ok ()

/-- One triangulate-then-calibrate iteration of
`run_initial_marker_optimization` (`util.py` lines 325-333), with the two
collaborator phases abstract: `tri` is
`markers_from_leastsquares_intersection` (Phase T, in `cate.xray`, not
under `src/`) and `cal` is the geometry update performed in place by
`run_calibration` (Phase C, whose solver internals live in `scipy` and
`cate.xray`). -/
def tcStep {σ μ : Type} (tri : σ → μ) (cal : σ → μ → σ) (s : σ) : σ :=
  cal s (tri s)

/-- The `for i in range(nr_iters)` loop of
`run_initial_marker_optimization`: each pass recomputes `markers` from the
current geometry and then calibrates the geometry in place, discarding the
previous pass's markers. -/
def rimoLoop {σ μ : Type} (tri : σ → μ) (cal : σ → μ → σ) :
    Nat → σ → Option μ → σ × Option μ
  | 0, g, m => (g, m)
  | n + 1, g, _ => rimoLoop tri cal n (cal g (tri g)) (some (tri g))

/-- `run_initial_marker_optimization` (`util.py` lines 317-336):
`assert nr_iters > 0`, then the fixed-count loop, then `return markers`.
The result pairs the final geometry state with the markers of the last
iteration (`Option.none` would mean the loop never ran, which the
assertion rules out). -/
def run_initial_marker_optimization {σ μ : Type} (tri : σ → μ)
    (cal : σ → μ → σ) (geoms : σ) (nrIters : Int) :
    Except PyErr (σ × Option μ) :=
  if nrIters > 0 then .ok (rimoLoop tri cal nrIters.toNat geoms Option.none)
  else .error .assertionError

/-!  Definitions used to state and prove the properties. -/

/-- A parameter whose stored value is concrete (no callable, no `None`)
and has the shape its class prescribes: a `ScalarParameter` holds a plain
number, a `VectorParameter` holds a length-3 array, and a plain
`Parameter` holds a nonempty array.  These are exactly the stored shapes
for which one flat-vector slot per component exists and a pack/unpack
round trip restores the stored representation bit for bit. -/
def Parameter.shapeValid (p : Parameter) : Bool :=
  match p.kind, p.pvalue with
  | .scalar, .scalar _ => true
  | .vector, .array xs => xs.length == 3
  | .base, .array xs => !(xs.length == 0)
  | _, _ => false

/-- Every entry that `optimizable_only=True` marshalling includes is
shape-valid (excluded parameters and non-`Parameter` sentinels are
unconstrained, since both loops skip them before touching their value). -/
def includedShapeValid : List Entry → Bool
  | [] => true
  | .param p :: rest =>
    (p.optimize == false || p.shapeValid) && includedShapeValid rest
  | .other _ :: rest => includedShapeValid rest

/-- The numeric components a parameter contributes to the flat vector. -/
def Parameter.valNums (p : Parameter) : List Num :=
  match p.pvalue with
  | .scalar x => [x]
  | .array xs => xs
  | .list xs => xs
  | _ => []

/-- The flat vector the `value` pack of a collection produces: the
concatenation, in collection order, of the values of the included
parameters. -/
def packedVals (oo : Bool) : List Entry → List Num
  | [] => []
  | .other _ :: rest => packedVals oo rest
  | .param p :: rest =>
    if oo && p.optimize == false then packedVals oo rest
    else p.valNums ++ packedVals oo rest

/-- The number of non-`Parameter` sentinels in a collection — one
`UserWarning` is issued for each by the counting loop. -/
def othersCount : List Entry → Nat
  | [] => 0
  | .other _ :: rest => othersCount rest + 1
  | .param _ :: rest => othersCount rest

/-- The spec's end-to-end collection (§8): two optimizable scalars `2.0`
and `-1.0` without explicit bounds, one optimizable vector `[1, 2, 3]`,
one non-optimizable scalar `5.0`. -/
def demoParams : List Entry :=
  [ .param (ScalarParameter.init (.scalar (.fin 2)) true Option.none),
    .param (ScalarParameter.init (.scalar (.fin (-1))) true Option.none),
    .param ⟨.vector, .array [.fin 1, .fin 2, .fin 3], true, Option.none⟩,
    .param (ScalarParameter.init (.scalar (.fin 5)) false Option.none) ]

/-- The demo collection after unpacking `[9.0, -9.0, 7, 8, 9]`. -/
def demoParamsAfter : List Entry :=
  [ .param (ScalarParameter.init (.scalar (.fin 9)) true Option.none),
    .param (ScalarParameter.init (.scalar (.fin (-9))) true Option.none),
    .param ⟨.vector, .array [.fin 7, .fin 8, .fin 9], true, Option.none⟩,
    .param (ScalarParameter.init (.scalar (.fin 5)) false Option.none) ]

/-- Two optimizable scalars, used to exercise `update_params` with a flat
vector one element short of the expected length 2. -/
def shortVecParams : List Entry :=
  [ .param (ScalarParameter.init (.scalar (.fin 2)) true Option.none),
    .param (ScalarParameter.init (.scalar (.fin 3)) true Option.none) ]

/-- A collection whose single included parameter stores an empty array, so
the counting loop of `params2ndarray` computes total length 0. -/
def emptyValueParams : List Entry :=
  [ .param ⟨.base, .array [], true, Option.none⟩ ]

/-- A mixed collection — a sentinel, an excluded parameter with a callable
value, and the four demo parameters — used to instantiate the round-trip
theorem. -/
def mixedParams : List Entry :=
  [ .other 7,
    .param ⟨.base, .func (.scalar (.fin 4)), false, Option.none⟩,
    .param (ScalarParameter.init (.scalar (.fin 2)) true Option.none),
    .param ⟨.vector, .array [.fin 1, .fin 2, .fin 3], true, Option.none⟩,
    .param ⟨.base, .array [.fin 6, .fin 7], true, Option.none⟩ ]

/-!  Helper lemmas about shape-valid parameters. -/

theorem pyLen_of_shapeValid (p : Parameter) (h : p.shapeValid = true) :
    p.pyLen = .ok p.valNums.length := by
  obtain ⟨k, pv, o, b⟩ := p
  cases k <;> cases pv <;>
    simp_all [Parameter.shapeValid, Parameter.pyLen, Parameter.valNums,
      Val.npIsScalar]

theorem valNums_length_pos_of_shapeValid (p : Parameter)
    (h : p.shapeValid = true) : p.valNums.length ≠ 0 := by
  obtain ⟨k, pv, o, b⟩ := p
  cases k <;> cases pv <;>
    simp_all [Parameter.shapeValid, Parameter.valNums]

theorem broadcast_of_shapeValid (p : Parameter) (h : p.shapeValid = true) :
    npBroadcastAssign p.getValue p.valNums.length = .ok p.valNums := by
  obtain ⟨k, pv, o, b⟩ := p
  cases k <;> cases pv <;>
    simp_all [Parameter.shapeValid, Parameter.getValue, Parameter.valNums,
      npBroadcastAssign]

theorem setValue_valNums_of_shapeValid (p : Parameter)
    (h : p.shapeValid = true) : p.setValue (.array p.valNums) = .ok p := by
  obtain ⟨k, pv, o, b⟩ := p
  cases k <;> cases pv <;>
    simp_all [Parameter.shapeValid, Parameter.setValue, Parameter.valNums]

/-!  Claim theorems. -/

/-- C3: on the spec's end-to-end collection — optimizable scalars `2.0`
and `-1.0`, optimizable vector `[1, 2, 3]`, non-optimizable scalar `5.0` —
`params2ndarray` with `optimizable_only=True` and `key='value'` returns
the 5-element vector `[2.0, -1.0, 1, 2, 3]` (with no warnings), and
`update_params` with `[9.0, -9.0, 7, 8, 9]` sets the three optimizable
parameters to `9.0`, `-9.0` and `[7, 8, 9]` while the non-optimizable
scalar keeps the value `5.0`. -/
theorem C3_end_to_end_scenario :
    params2ndarray demoParams true "value"
      = .ok (0, .arr [.fin 2, .fin (-1), .fin 1, .fin 2, .fin 3])
    ∧ update_params demoParams [.fin 9, .fin (-9), .fin 7, .fin 8, .fin 9] true
      = ⟨demoParamsAfter, 5, 0, Option.none⟩ :=
  ⟨rfl, by decide⟩

/-- C5 counterexample: assigning the two-element array `[1, 2]` — which is
neither a single number nor a single-element array — to a
`ScalarParameter` raises `ValueError` (from `ndarray.item()`), not the
`TypeError` the claim promises for every invalid value. -/
theorem C5_counterexample :
    Parameter.setValue (ScalarParameter.init (.scalar (.fin 0)) true Option.none)
        (.array [.fin 1, .fin 2]) = .error .valueError
    ∧ PyErr.valueError ≠ PyErr.typeError :=
  ⟨rfl, by decide⟩

/-- C5 (amended): assigning to a `ScalarParameter` stores `None` and plain
numbers unchecked, coerces a single-element array to a plain number — a
subsequent read returns that plain number, not an array — raises
`ValueError` for an array whose size is not 1, and raises `TypeError` for
lists and callables. -/
theorem C5_amended_scalar_assignment (p : Parameter) (hk : p.kind = .scalar) :
    p.setValue .none = .ok { p with pvalue := .none }
    ∧ (∀ x, p.setValue (.scalar x) = .ok { p with pvalue := .scalar x })
    ∧ (∀ x, p.setValue (.array [x]) = .ok { p with pvalue := .scalar x }
        ∧ Parameter.getValue { p with pvalue := Val.scalar x } = .scalar x)
    ∧ (∀ xs, xs.length ≠ 1 → p.setValue (.array xs) = .error .valueError)
    ∧ (∀ xs, p.setValue (.list xs) = .error .typeError)
    ∧ (∀ v, p.setValue (.func v) = .error .typeError) := by
  obtain ⟨k, pv, o, b⟩ := p
  cases hk
  refine ⟨rfl, fun x => rfl, fun x => ⟨rfl, rfl⟩, ?_, fun xs => rfl,
    fun v => rfl⟩
  intro xs hxs
  match xs with
  | [] => rfl
  | [x] => exact absurd rfl hxs
  | x :: y :: rest => rfl

/-- C5 witness: the amended statement evaluated on a concrete
`ScalarParameter`: the single-element array `[7]` is coerced to the plain
number `7`. -/
theorem C5_amended_scalar_assignment_witness :
    Parameter.setValue (ScalarParameter.init (.scalar (.fin 0)) true Option.none)
        (.array [.fin 7])
      = .ok (ScalarParameter.init (.scalar (.fin 7)) true Option.none)
    ∧ Parameter.getValue (ScalarParameter.init (.scalar (.fin 7)) true Option.none)
      = .scalar (.fin 7) := by
  have h := (C5_amended_scalar_assignment
    (ScalarParameter.init (.scalar (.fin 0)) true Option.none) rfl).2.2.1 (.fin 7)
  exact ⟨h.1, h.2⟩

/-- C6: constructing a `VectorParameter` succeeds exactly on arrays (or
lists, which are converted) of length 3; arrays or lists of any other
length raise the shape error `ValueError`, and any non-array, non-list
value raises `TypeError`. -/
theorem C6_vector_construction (v : Val) (opt : Bool)
    (b : Option (List Num × List Num)) :
    (∀ xs, v = .array xs ∨ v = .list xs →
      VectorParameter.init v opt b
        = if xs.length = 3 then .ok ⟨.vector, .array xs, opt, b⟩
          else .error .valueError)
    ∧ ((∀ xs, v ≠ .array xs ∧ v ≠ .list xs) →
      VectorParameter.init v opt b = .error .typeError) := by
  constructor
  · rintro xs (rfl | rfl) <;> rfl
  · intro h
    match v with
    | .none => rfl
    | .scalar x => rfl
    | .func w => rfl
    | .array xs => exact absurd rfl (h xs).1
    | .list xs => exact absurd rfl (h xs).2

/-- C6 witness: the construction classification evaluated concretely — a
length-2 array is rejected with `ValueError`, a length-3 list is accepted
and converted to an array. -/
theorem C6_vector_construction_witness :
    VectorParameter.init (.array [.fin 1, .fin 2]) true Option.none
      = .error .valueError
    ∧ VectorParameter.init (.list [.fin 1, .fin 2, .fin 3]) true Option.none
      = .ok ⟨.vector, .array [.fin 1, .fin 2, .fin 3], true, Option.none⟩ := by
  have h1 := (C6_vector_construction (.array [.fin 1, .fin 2]) true
    Option.none).1 [.fin 1, .fin 2] (Or.inl rfl)
  have h2 := (C6_vector_construction (.list [.fin 1, .fin 2, .fin 3]) true
    Option.none).1 [.fin 1, .fin 2, .fin 3] (Or.inr rfl)
  rw [if_neg (by decide)] at h1
  rw [if_pos (by decide)] at h2
  exact ⟨h1, h2⟩

/-- C9: when a parameter's stored value is a zero-argument callable,
`len()` is computed on the raw callable — never on the produced value —
so it raises `TypeError`, and therefore the default bounds computation,
`params2ndarray` and `update_params` on a collection including the
parameter all fail with `TypeError` instead of resolving the producer. -/
theorem C9_callable_len (p : Parameter) (v : Val) (hv : p.pvalue = .func v) :
    p.pyLen = .error .typeError
    ∧ (p.pbounds = Option.none → p.getBounds = .error .typeError)
    ∧ (p.optimize = true → ∀ oo key,
        params2ndarray [.param p] oo key = .error .typeError)
    ∧ (p.optimize = true → ∀ oo x,
        update_params [.param p] x oo = ⟨[.param p], 0, 0, some .typeError⟩) := by
  have hlen : p.pyLen = .error .typeError := by
    simp [Parameter.pyLen, hv, Val.npIsScalar]
  refine ⟨hlen, ?_, ?_, ?_⟩
  · intro hb
    simp [Parameter.getBounds, hb, hlen]
  · intro ho oo key
    simp [params2ndarray, packCount, ho, hlen]
  · intro ho oo x
    simp [update_params, updateGo, ho, hlen]

/-- C9 witness: the callable-value failures evaluated on a concrete
parameter whose producer would return the scalar `1`. -/
theorem C9_callable_len_witness :
    Parameter.pyLen ⟨.base, .func (.scalar (.fin 1)), true, Option.none⟩
      = .error .typeError
    ∧ Parameter.getBounds ⟨.base, .func (.scalar (.fin 1)), true, Option.none⟩
      = .error .typeError
    ∧ params2ndarray [.param ⟨.base, .func (.scalar (.fin 1)), true, Option.none⟩]
        true "value" = .error .typeError
    ∧ update_params [.param ⟨.base, .func (.scalar (.fin 1)), true, Option.none⟩]
        [] true
      = ⟨[.param ⟨.base, .func (.scalar (.fin 1)), true, Option.none⟩], 0, 0,
         some .typeError⟩ := by
  have h := C9_callable_len ⟨.base, .func (.scalar (.fin 1)), true, Option.none⟩
    (.scalar (.fin 1)) rfl
  exact ⟨h.1, h.2.1 rfl, h.2.2.1 rfl true "value", h.2.2.2 rfl true []⟩

/-- C7: for every pair of initial and calibrated geometry lists, the
post-calibration validation loop of `run_calibration` — element-wise
near-equality of source, detector, roll, pitch and yaw at 3 decimals —
never raises to the caller: each comparison runs inside a bare
`try: ... except: pass`, so any failure is swallowed and the loop
finishes normally. -/
theorem C7_validation_never_raises (gs1 gs2 : List StaticGeometry) :
    postCalibrationValidation gs1 gs2 = .ok () := by
  induction gs1 generalizing gs2 with
  | nil => cases gs2 <;> rfl
  | cons g r ih =>
    cases gs2 with
    | nil => rfl
    | cons g2 r2 =>
      simpa [postCalibrationValidation, pyTryExceptPass] using ih r2

theorem rimoLoop_succ {σ μ : Type} (tri : σ → μ) (cal : σ → μ → σ)
    (k : Nat) (g : σ) (m : Option μ) :
    rimoLoop tri cal (k + 1) g m
      = ((tcStep tri cal)^[k + 1] g, some (tri ((tcStep tri cal)^[k] g))) := by
  induction k generalizing g m with
  | zero => simp [rimoLoop, tcStep]
  | succ k ih =>
    show rimoLoop tri cal (k + 1) (cal g (tri g)) (some (tri g)) = _
    rw [ih]
    rw [show cal g (tri g) = tcStep tri cal g from rfl]
    rw [← Function.iterate_succ_apply, ← Function.iterate_succ_apply]

/-- C8: `run_initial_marker_optimization` raises its precondition
assertion whenever `nr_iters` is not positive, and otherwise runs the
triangulate-then-calibrate pair exactly `nr_iters` times — for arbitrary
Phase T and Phase C collaborators, with no internal convergence check —
returning the markers triangulated in the last iteration. -/
theorem C8_iteration_count {σ μ : Type} (tri : σ → μ) (cal : σ → μ → σ)
    (g : σ) (n : Int) :
    (n ≤ 0 → run_initial_marker_optimization tri cal g n
      = .error .assertionError)
    ∧ (0 < n → run_initial_marker_optimization tri cal g n
      = .ok ((tcStep tri cal)^[n.toNat] g,
             some (tri ((tcStep tri cal)^[n.toNat - 1] g)))) := by
  constructor
  · intro hn
    rw [run_initial_marker_optimization, if_neg (by omega)]
  · intro hn
    obtain ⟨k, hk⟩ : ∃ k, n.toNat = k + 1 := ⟨n.toNat - 1, by omega⟩
    rw [run_initial_marker_optimization, if_pos hn, hk, rimoLoop_succ]
    simp

/-- C8 witness: the iteration-count theorem evaluated with concrete
counting collaborators (`tri` increments, `cal` adds the marker) at
`nr_iters = 2`, and the assertion failure at `nr_iters = 0`. -/
theorem C8_iteration_count_witness :
    run_initial_marker_optimization (fun s : Nat => s + 1)
        (fun s m => s + m) 0 2 = .ok (3, some 2)
    ∧ run_initial_marker_optimization (fun s : Nat => s + 1)
        (fun s m => s + m) 0 0 = .error .assertionError := by
  constructor
  · have h := (C8_iteration_count (fun s : Nat => s + 1)
      (fun s m => s + m) 0 2).2 (by decide)
    rw [h]; rfl
  · exact (C8_iteration_count (fun s : Nat => s + 1)
      (fun s m => s + m) 0 0).1 (by decide)

/-!  Round-trip lemmas: on shape-valid collections the counting loop, the
fill loop and the update loop all follow `packedVals`. -/

theorem packCount_of_shapeValid (params : List Entry)
    (h : includedShapeValid params = true) :
    packCount true params
      = .ok (othersCount params, (packedVals true params).length) := by
  induction params with
  | nil => rfl
  | cons e rest ih =>
    match e with
    | .other t =>
      rw [includedShapeValid] at h
      simp [packCount, othersCount, packedVals, ih h]
    | .param p =>
      rw [includedShapeValid, Bool.and_eq_true] at h
      cases hp : p.optimize with
      | false =>
        simp [packCount, othersCount, packedVals, hp, ih h.2]
      | true =>
        have hsv : p.shapeValid = true := by
          rcases Bool.or_eq_true_iff.mp h.1 with h1 | h1
          · rw [hp] at h1; cases h1
          · exact h1
        simp [packCount, othersCount, packedVals, hp,
          pyLen_of_shapeValid p hsv, ih h.2]

theorem packFill_of_shapeValid (params : List Entry)
    (h : includedShapeValid params = true) :
    packFill true "value" params = .ok (.arr (packedVals true params)) := by
  induction params with
  | nil => rfl
  | cons e rest ih =>
    match e with
    | .other t =>
      rw [includedShapeValid] at h
      simp [packFill, packedVals, ih h]
    | .param p =>
      rw [includedShapeValid, Bool.and_eq_true] at h
      cases hp : p.optimize with
      | false =>
        simp [packFill, packedVals, hp, ih h.2]
      | true =>
        have hsv : p.shapeValid = true := by
          rcases Bool.or_eq_true_iff.mp h.1 with h1 | h1
          · rw [hp] at h1; cases h1
          · exact h1
        simp [packFill, packedVals, hp, pyLen_of_shapeValid p hsv, keyStore,
          broadcast_of_shapeValid p hsv, ih h.2]

theorem updateGo_roundtrip (params : List Entry)
    (h : includedShapeValid params = true) (x : List Num) (idx : Nat)
    (hx : x.drop idx = packedVals true params) :
    updateGo true x params idx
      = ⟨params, idx + (packedVals true params).length, 0, Option.none⟩ := by
  induction params generalizing idx with
  | nil =>
    rw [packedVals] at hx ⊢
    simp [updateGo]
  | cons e rest ih =>
    match e with
    | .other t =>
      rw [includedShapeValid] at h
      rw [packedVals] at hx ⊢
      simp [updateGo, ih h idx hx]
    | .param p =>
      rw [includedShapeValid, Bool.and_eq_true] at h
      cases hp : p.optimize with
      | false =>
        have hx' : x.drop idx = packedVals true rest := by
          rw [packedVals] at hx
          simpa [hp] using hx
        simp [updateGo, packedVals, hp, ih h.2 idx hx']
      | true =>
        have hsv : p.shapeValid = true := by
          rcases Bool.or_eq_true_iff.mp h.1 with h1 | h1
          · rw [hp] at h1; cases h1
          · exact h1
        have hx' : x.drop idx = p.valNums ++ packedVals true rest := by
          rw [packedVals] at hx
          simpa [hp] using hx
        have hslice : (x.drop idx).take p.valNums.length = p.valNums := by
          rw [hx', List.take_left]
        have hdrop : x.drop (idx + p.valNums.length) = packedVals true rest := by
          rw [← List.drop_drop, hx', List.drop_left]
        have hrec := ih h.2 (idx + p.valNums.length) hdrop
        simp [updateGo, packedVals, hp, pyLen_of_shapeValid p hsv,
          valNums_length_pos_of_shapeValid p hsv, hslice,
          setValue_valNums_of_shapeValid p hsv, hrec, Nat.add_assoc]

/-- C1: for every collection of shape-valid concrete parameters (possibly
interleaved with non-`Parameter` sentinels), unpacking the vector just
packed with `optimizable_only=True` and `key='value'` succeeds and leaves
the collection exactly as it was: every included parameter gets back the
value that was packed, entries are restored in collection order, and
every excluded parameter is untouched. -/
theorem C1_round_trip (params : List Entry)
    (h : includedShapeValid params = true) :
    ∃ w r, params2ndarray params true "value" = .ok (w, r)
      ∧ update_params params r.vec true
        = ⟨params, r.vec.length, 0, Option.none⟩ := by
  by_cases hL : (packedVals true params).length = 0
  · refine ⟨othersCount params, .emptyList, ?_, ?_⟩
    · simp [params2ndarray, packCount_of_shapeValid params h, hL]
    · have hnil : packedVals true params = [] := List.eq_nil_of_length_eq_zero hL
      have hgo := updateGo_roundtrip params h [] 0 (by simp [hnil])
      rw [hL] at hgo
      simp [update_params, PackResult.vec, hgo]
  · refine ⟨othersCount params, .arr (packedVals true params), ?_, ?_⟩
    · simp [params2ndarray, packCount_of_shapeValid params h, hL,
        packFill_of_shapeValid params h]
    · have hgo := updateGo_roundtrip params h (packedVals true params) 0 rfl
      simp [update_params, PackResult.vec, hgo]

/-- C1 witness: the round trip evaluated on a mixed concrete collection
containing a sentinel, an excluded callable-valued parameter and three
shape-valid included parameters. -/
theorem C1_round_trip_witness :
    ∃ w r, params2ndarray mixedParams true "value" = .ok (w, r)
      ∧ update_params mixedParams r.vec true
        = ⟨mixedParams, r.vec.length, 0, Option.none⟩ :=
  C1_round_trip mixedParams (by decide)

/-!  Lemmas about `update_params` under length mismatch. -/

theorem updateGo_idx_of_ok (x : List Num) (params : List Entry) :
    ∀ w L idx, packCount true params = .ok (w, L) →
      (updateGo true x params idx).error = Option.none →
      (updateGo true x params idx).idx = idx + L := by
  induction params with
  | nil =>
    intro w L idx hc _
    rw [packCount] at hc
    cases hc
    simp [updateGo]
  | cons e rest ih =>
    intro w L idx hc herr
    match e with
    | .other t =>
      cases hrest : packCount true rest with
      | error er => simp [packCount, hrest] at hc
      | ok wl =>
        obtain ⟨w', l⟩ := wl
        simp [packCount, hrest] at hc
        simp only [updateGo] at herr ⊢
        have hrec := ih w' l idx hrest herr
        omega
    | .param p =>
      cases hp : p.optimize with
      | false =>
        simp only [packCount, hp] at hc
        simp only [updateGo, hp] at herr ⊢
        simp only [beq_self_eq_true, Bool.and_true, if_true] at hc herr ⊢
        exact ih w L idx hc herr
      | true =>
        cases hlen : p.pyLen with
        | error er => simp [packCount, hp, hlen] at hc
        | ok n =>
          cases hrest : packCount true rest with
          | error er => simp [packCount, hp, hlen, hrest] at hc
          | ok wl =>
            obtain ⟨w', l⟩ := wl
            simp [packCount, hp, hlen, hrest] at hc
            by_cases hn : n = 0
            · simp [updateGo, hp, hlen, hn] at herr
            · cases hset : p.setValue (.array ((x.drop idx).take n)) with
              | error er => simp [updateGo, hp, hlen, hn, hset] at herr
              | ok p2 =>
                simp only [updateGo, hp, hlen, hset] at herr ⊢
                simp only [beq_self_eq_true, Bool.and_true, if_neg hn] at herr ⊢
                simp [hn] at herr ⊢
                rw [ih w' l (idx + n) hrest herr]
                omega

theorem updateGo_err_of_zero_len (x : List Num) (params : List Entry)
    (p : Parameter) (hopt : p.optimize = true) (hlen : p.pyLen = .ok 0) :
    ∀ idx, Entry.param p ∈ params →
      (updateGo true x params idx).error ≠ Option.none := by
  induction params with
  | nil => intro idx hmem; cases hmem
  | cons e rest ih =>
    intro idx hmem
    match e with
    | .other t =>
      have hmem' : Entry.param p ∈ rest := by
        rcases List.mem_cons.mp hmem with h1 | h1
        · cases h1
        · exact h1
      simpa [updateGo] using ih idx hmem'
    | .param q =>
      cases hq : q.optimize with
      | false =>
        have hmem' : Entry.param p ∈ rest := by
          rcases List.mem_cons.mp hmem with h1 | h1
          · injection h1 with h2; rw [h2, hq] at hopt; cases hopt
          · exact h1
        simpa [updateGo, hq] using ih idx hmem'
      | true =>
        cases hql : q.pyLen with
        | error er => simp [updateGo, hq, hql]
        | ok n =>
          by_cases hn : n = 0
          · simp [updateGo, hq, hql, hn]
          · have hmem' : Entry.param p ∈ rest := by
              rcases List.mem_cons.mp hmem with h1 | h1
              · injection h1 with h2
                rw [h2, hql] at hlen
                cases hlen
                exact absurd rfl hn
              · exact h1
            cases hset : q.setValue (.array ((x.drop idx).take n)) with
            | error er => simp [updateGo, hq, hql, hn, hset]
            | ok q2 =>
              simpa [updateGo, hq, hql, hn, hset] using ih (idx + n) hmem'

/-- C2 counterexample: on two optimizable scalars `2.0` and `3.0`,
unpacking the one-element vector `[9.0]` does raise (`ValueError`, when
the clipped empty slice reaches the second scalar's `item()`), but the
first parameter has already been set to `9.0` in place — the collection
is not left unchanged, contradicting the claimed no-partial-update
behavior. -/
theorem C2_counterexample :
    (update_params shortVecParams [.fin 9] true).error = some .valueError
    ∧ (update_params shortVecParams [.fin 9] true).entries ≠ shortVecParams
    ∧ (update_params shortVecParams [.fin 9] true).entries
      = [ .param (ScalarParameter.init (.scalar (.fin 9)) true Option.none),
          .param (ScalarParameter.init (.scalar (.fin 3)) true Option.none) ] := by
  refine ⟨rfl, ?_, by decide⟩
  decide

/-- C2 (amended): calling `update_params` with a flat vector whose length
differs from the sum of the included entries' lengths always raises —
either mid-loop (a `ValueError` when a clipped slice hits a scalar
parameter) or at the closing `assert idx == len(x)` — but parameters
processed before the failure point have already been updated in place;
likewise an included entry reporting length 0 always makes the call
raise. -/
theorem C2_amended_mismatch_raises (params : List Entry) (x : List Num) :
    (∀ w L, packCount true params = .ok (w, L) → x.length ≠ L →
      (update_params params x true).error ≠ Option.none)
    ∧ (∀ p, Entry.param p ∈ params → p.optimize = true → p.pyLen = .ok 0 →
      (update_params params x true).error ≠ Option.none) := by
  constructor
  · intro w L hc hx
    cases herr : (updateGo true x params 0).error with
    | some er =>
      rw [update_params]
      simp [herr]
    | none =>
      have hidx := updateGo_idx_of_ok x params w L 0 hc herr
      rw [update_params]
      simp [herr, hidx, Ne.symm hx]
  · intro p hmem hopt hlen
    have h := updateGo_err_of_zero_len x params p hopt hlen 0 hmem
    cases herr : (updateGo true x params 0).error with
    | some er =>
      rw [update_params]
      simp [herr]
    | none => exact absurd herr h

/-- C2 witness: the amended statement evaluated on the two-scalar
collection with the one-element vector `[9.0]` (expected length 2). -/
theorem C2_amended_mismatch_raises_witness :
    (update_params shortVecParams [.fin 9] true).error ≠ Option.none :=
  (C2_amended_mismatch_raises shortVecParams [.fin 9]).1 0 2 rfl (by decide)

/-!  Lemmas on how both loops treat a non-`Parameter` sentinel. -/

theorem updateGo_warnings0 (oo : Bool) (x : List Num) (params : List Entry) :
    ∀ idx, (updateGo oo x params idx).warnings = 0 := by
  induction params with
  | nil => intro idx; rfl
  | cons e rest ih =>
    intro idx
    match e with
    | .other t => simpa [updateGo] using ih idx
    | .param p =>
      by_cases hp : oo = true ∧ p.optimize = false
      · obtain ⟨hoo, hopt⟩ := hp
        subst hoo
        simpa [updateGo, hopt] using ih idx
      · cases hl : p.pyLen with
        | error er => simp [updateGo, hp, hl]
        | ok n =>
          by_cases hn : n = 0
          · simp [updateGo, hp, hl, hn]
          · cases hset : p.setValue (.array ((x.drop idx).take n)) with
            | error er => simp [updateGo, hp, hl, hn, hset]
            | ok p2 => simpa [updateGo, hp, hl, hn, hset] using ih (idx + n)

theorem packCount_other (oo : Bool) (t : Nat) (pre post : List Entry) :
    packCount oo (pre ++ .other t :: post)
      = (packCount oo (pre ++ post)).map (fun wl => (wl.1 + 1, wl.2)) := by
  induction pre with
  | nil =>
    simp only [List.nil_append]
    cases h : packCount oo post with
    | error er => simp [packCount, h, Except.map]
    | ok wl => obtain ⟨w, l⟩ := wl; simp [packCount, h, Except.map]
  | cons e pre' ih =>
    match e with
    | .other t' =>
      cases h : packCount oo (pre' ++ post) with
      | error er => simp [packCount, ih, h, Except.map]
      | ok wl => obtain ⟨w, l⟩ := wl; simp [packCount, ih, h, Except.map]
    | .param p =>
      by_cases hp : oo = true ∧ p.optimize = false
      · obtain ⟨hoo, hopt⟩ := hp
        subst hoo
        simp [packCount, hopt, ih]
      · cases hl : p.pyLen with
        | error er => simp [packCount, hp, ih, hl, Except.map]
        | ok n =>
          cases h : packCount oo (pre' ++ post) with
          | error er => simp [packCount, hp, ih, hl, h, Except.map]
          | ok wl =>
            obtain ⟨w, l⟩ := wl
            simp [packCount, hp, ih, hl, h, Except.map]

theorem packFill_other (oo : Bool) (key : String) (t : Nat)
    (pre post : List Entry) :
    packFill oo key (pre ++ .other t :: post)
      = packFill oo key (pre ++ post) := by
  induction pre with
  | nil => simp [packFill]
  | cons e pre' ih =>
    match e with
    | .other t' => simp [packFill, ih]
    | .param p =>
      by_cases hp : oo = true ∧ p.optimize = false
      · obtain ⟨hoo, hopt⟩ := hp
        subst hoo
        simp [packFill, hopt, ih]
      · simp [packFill, hp, ih]

theorem params2ndarray_other (oo : Bool) (key : String) (t : Nat)
    (pre post : List Entry) :
    params2ndarray (pre ++ .other t :: post) oo key
      = (params2ndarray (pre ++ post) oo key).map
          (fun wr => (wr.1 + 1, wr.2)) := by
  rw [params2ndarray, params2ndarray, packCount_other, packFill_other]
  cases h : packCount oo (pre ++ post) with
  | error er => simp [Except.map]
  | ok wl =>
    obtain ⟨w, L⟩ := wl
    by_cases hL : L = 0
    · simp [Except.map, hL]
    · simp only [Except.map, hL, if_neg hL]
      cases hf : packFill oo key (pre ++ post) with
      | error er => simp
      | ok fo =>
        cases fo with
        | valueErrorClass => simp
        | arr xs => by_cases hx : xs.length = L <;> simp [hx]

theorem updateGo_other (oo : Bool) (x : List Num) (t : Nat)
    (pre post : List Entry) :
    ∀ idx, ∃ es1 es2 i e,
      updateGo oo x (pre ++ post) idx = ⟨es1 ++ es2, i, 0, e⟩
      ∧ es1.length = pre.length
      ∧ updateGo oo x (pre ++ .other t :: post) idx
        = ⟨es1 ++ .other t :: es2, i, 0, e⟩ := by
  induction pre with
  | nil =>
    intro idx
    have hw : (updateGo oo x post idx).warnings = 0 :=
      updateGo_warnings0 oo x post idx
    refine ⟨[], (updateGo oo x post idx).entries, (updateGo oo x post idx).idx,
      (updateGo oo x post idx).error, ?_, rfl, ?_⟩
    · rw [← hw]
      rfl
    · rw [← hw]
      rfl
  | cons e pre' ih =>
    intro idx
    match e with
    | .other t' =>
      obtain ⟨es1, es2, i, er, h1, hlen, h2⟩ := ih idx
      refine ⟨.other t' :: es1, es2, i, er, ?_, by simp [hlen], ?_⟩
      · simp [updateGo, h1]
      · simp [updateGo, h2]
    | .param p =>
      by_cases hp : oo = true ∧ p.optimize = false
      · obtain ⟨hoo, hopt⟩ := hp
        subst hoo
        obtain ⟨es1, es2, i, er, h1, hlen, h2⟩ := ih idx
        refine ⟨.param p :: es1, es2, i, er, ?_, by simp [hlen], ?_⟩
        · simp [updateGo, hopt, h1]
        · simp [updateGo, hopt, h2]
      · cases hl : p.pyLen with
        | error er' =>
          refine ⟨.param p :: pre', post, idx, some er', ?_, rfl, ?_⟩
          · simp [updateGo, hp, hl]
          · simp [updateGo, hp, hl]
        | ok n =>
          by_cases hn : n = 0
          · refine ⟨.param p :: pre', post, idx, some .assertionError, ?_,
              rfl, ?_⟩
            · simp [updateGo, hp, hl, hn]
            · simp [updateGo, hp, hl, hn]
          · cases hset : p.setValue (.array ((x.drop idx).take n)) with
            | error er' =>
              refine ⟨.param p :: pre', post, idx, some er', ?_, rfl, ?_⟩
              · simp [updateGo, hp, hl, hn, hset]
              · simp [updateGo, hp, hl, hn, hset]
            | ok p2 =>
              obtain ⟨es1, es2, i, er, h1, hlen, h2⟩ := ih (idx + n)
              refine ⟨.param p2 :: es1, es2, i, er, ?_, by simp [hlen], ?_⟩
              · simp [updateGo, hp, hl, hn, hset, h1]
              · simp [updateGo, hp, hl, hn, hset, h2]

/-- C4 counterexample: on the collection holding a single non-`Parameter`
sentinel, `params2ndarray` issues one `UserWarning`, but `update_params`
issues none — its loop skips the sentinel silently (`param.py` lines
150-151 contain no `warnings.warn` call), contradicting the claim that
both operations warn. -/
theorem C4_counterexample :
    params2ndarray [Entry.other 0] true "value" = .ok (1, .emptyList)
    ∧ (update_params [Entry.other 0] [] true).warnings = 0 :=
  ⟨rfl, rfl⟩

/-- C4 (amended): a non-`Parameter` entry is skipped by both operations
and contributes no flat-vector slots — `params2ndarray` behaves exactly
as on the collection without it except for issuing one more warning,
while `update_params` produces the same cursor, warns zero times, raises
the same error, updates the same parameters and leaves the sentinel in
place untouched. -/
theorem C4_amended_sentinel_handling (pre post : List Entry) (t : Nat)
    (oo : Bool) (key : String) (x : List Num) :
    params2ndarray (pre ++ .other t :: post) oo key
      = (params2ndarray (pre ++ post) oo key).map
          (fun wr => (wr.1 + 1, wr.2))
    ∧ ∃ es1 es2 i e,
        update_params (pre ++ post) x oo = ⟨es1 ++ es2, i, 0, e⟩
        ∧ es1.length = pre.length
        ∧ update_params (pre ++ .other t :: post) x oo
          = ⟨es1 ++ .other t :: es2, i, 0, e⟩ := by
  refine ⟨params2ndarray_other oo key t pre post, ?_⟩
  obtain ⟨es1, es2, i, er, h1, hlen, h2⟩ := updateGo_other oo x t pre post 0
  cases er with
  | some e' =>
    exact ⟨es1, es2, i, some e', by simp [update_params, h1], hlen,
      by simp [update_params, h2]⟩
  | none =>
    by_cases hi : i = x.length
    · exact ⟨es1, es2, i, Option.none, by simp [update_params, h1, hi], hlen,
        by simp [update_params, h2, hi]⟩
    · exact ⟨es1, es2, i, some .assertionError,
        by simp [update_params, h1, hi], hlen,
        by simp [update_params, h2, hi]⟩

theorem packFill_badKey (oo : Bool) (key : String) (hk1 : key ≠ "value")
    (hk2 : key ≠ "min_bound") (hk3 : key ≠ "max_bound") (params : List Entry) :
    ∀ w L, packCount oo params = .ok (w, L) → L ≠ 0 →
      packFill oo key params = .ok .valueErrorClass := by
  induction params with
  | nil =>
    intro w L hc hL
    rw [packCount] at hc
    cases hc
    exact absurd rfl hL
  | cons e rest ih =>
    intro w L hc hL
    match e with
    | .other t =>
      cases h : packCount oo rest with
      | error er => simp [packCount, h] at hc
      | ok wl =>
        obtain ⟨w', l⟩ := wl
        simp [packCount, h] at hc
        simp only [packFill]
        exact ih w' l h (by omega)
    | .param p =>
      by_cases hp : oo = true ∧ p.optimize = false
      · obtain ⟨hoo, hopt⟩ := hp
        subst hoo
        simp only [packCount, hopt] at hc
        simp only [packFill, hopt]
        simp only [beq_self_eq_true, Bool.and_self, if_true] at hc ⊢
        exact ih w L hc hL
      · cases hl : p.pyLen with
        | error er => simp [packCount, hp, hl] at hc
        | ok n =>
          simp [packFill, hp, hl, keyStore, hk1, hk2, hk3]

/-- C10 counterexample: a collection whose single included parameter
stores an empty array makes the counting loop return total length 0, so
`params2ndarray` with the unrecognized key `'foo'` returns the Python
empty list, not the `ValueError` class — the claim's universal statement
fails for this collection even though it contains an included
`Parameter`. -/
theorem C10_counterexample :
    params2ndarray emptyValueParams true "foo" = .ok (0, .emptyList)
    ∧ PackResult.emptyList ≠ PackResult.valueErrorClass :=
  ⟨rfl, by decide⟩

/-- C10 (amended): whenever the counting loop succeeds with a nonzero
total length, calling `params2ndarray` with a key other than `'value'`,
`'min_bound'` or `'max_bound'` does not raise: it returns the
`ValueError` class itself as its value on reaching the first included
entry of the fill loop, abandoning the output array. -/
theorem C10_amended_bad_key (params : List Entry) (oo : Bool) (key : String)
    (hk1 : key ≠ "value") (hk2 : key ≠ "min_bound") (hk3 : key ≠ "max_bound")
    (w L : Nat) (hc : packCount oo params = .ok (w, L)) (hL : L ≠ 0) :
    params2ndarray params oo key = .ok (w, .valueErrorClass) := by
  rw [params2ndarray]
  simp [hc, hL, packFill_badKey oo key hk1 hk2 hk3 params w L hc hL]

/-- C10 witness: the amended statement evaluated on a one-parameter
collection and the key `'foo'`. -/
theorem C10_amended_bad_key_witness :
    params2ndarray [.param ⟨.base, .array [.fin 1], true, Option.none⟩]
      true "foo" = .ok (0, .valueErrorClass) :=
  C10_amended_bad_key [.param ⟨.base, .array [.fin 1], true, Option.none⟩]
    true "foo" (by decide) (by decide) (by decide) 0 1 rfl (by decide)

end CaTE
